import Mathlib

/-!
Shallow embedding of the `teampenajaya/backend` complaint service.

The repository has two express apps:
* `src/server.js` — the CSRF-gated variant: an in-memory token store
  (`tokenStore : Map sessionId ↦ {token, expires}`), a `GET /get-csrf-token`
  issuance endpoint, a `validateCsrfToken` middleware, and a
  `POST /send-complaint` handler with inline field checks that embeds the raw
  body fields into an outgoing mail.
* `src/unnamed/part_000` — the validator/sanitizer variant: one predicate per
  field (`validators.*`), a tag-stripping `sanitize` helper, and a handler that
  sanitizes after validation.

Machine integers: all timestamps are epoch milliseconds, modelled as `Nat`
(JS `Date.now()` is a non-negative integral number in this range); parsed
dates may conceptually be negative, so date parsing yields `Option Int`
(`none` models an invalid date / `NaN`).  JS values appearing in the JSON body
are modelled by `JsVal`; JS falsiness, `.length` access on non-strings, and
string coercion in template literals are each embedded explicitly.
-/

namespace PenaBackend

/-- A JSON/JS value as it can appear in a request body field. -/
inductive JsVal where
  | str (s : String)
  | num (n : Int)
  | bool (b : Bool)
  | null
  | undef
deriving DecidableEq, Repr

/-- JS truthiness of a `JsVal` (`""`, `0`, `false`, `null`, `undefined` are falsy). -/
def JsVal.truthy : JsVal → Bool
  | .str s => s ≠ ""
  | .num n => n ≠ 0
  | .bool b => b
  | .null => false
  | .undef => false

/-- JS string coercion, as performed by template literals and `RegExp.test`. -/
def JsVal.jsToString : JsVal → String
  | .str s => s
  | .num n => toString n
  | .bool b => if b then "true" else "false"
  | .null => "null"
  | .undef => "undefined"

/-- Is this value a string (`typeof value === "string"`)? -/
def JsVal.isStr : JsVal → Bool
  | .str _ => true
  | _ => false

/-- Whitespace for the purposes of JS `trim` and `\s` (ASCII whitespace). -/
def isWs (c : Char) : Bool :=
  c = ' ' || c = '\t' || c = '\n' || c = '\r' || c = '\x0b' || c = '\x0c'

/-- JS `String.prototype.trim` on the character list: drop whitespace from
both ends. -/
def jsTrimL (l : List Char) : List Char :=
  ((l.dropWhile isWs).reverse.dropWhile isWs).reverse

/-- JS `String.prototype.trim`. -/
def jsTrim (s : String) : String := ⟨jsTrimL s.data⟩

/-!
`sanitize` (src/unnamed/part_000 lines 65–71):

    input.replace(/<\/?[^>]+(>|$)/g, "").trim()

The regex, scanned left to right: a match starts at `<`, optionally takes `/`,
then one or more non-`>` characters, then either a `>` (consumed) or the end
of input.  Because `/` itself is a non-`>` character and `[^>]+` is greedy
with backtracking, a match starts at a `<` exactly when the next character
exists and is not `>`, and it extends to (and including) the next `>`, or to
the end of input if there is no later `>`.  `stripAux` runs this scan:
`inTag = true` means we are inside a match consuming `[^>]*` up to the
terminating `>` (or end of input).
-/

/-- One left-to-right pass of `replace(/<\/?[^>]+(>|$)/g, "")`. -/
def stripAux : List Char → Bool → List Char
  | [], _ => []
  | c :: rest, true =>
    if c = '>' then stripAux rest false else stripAux rest true
  | c :: rest, false =>
    if c = '<' then
      match rest with
      | [] => ['<']
      | d :: _ => if d = '>' then '<' :: stripAux rest false else stripAux rest true
    else c :: stripAux rest false

/-- Embedding of `input.replace(/<\/?[^>]+(>|$)/g, "")` on the character list. -/
def stripTags (l : List Char) : List Char := stripAux l false

/-- The string branch of `sanitize`, on character lists: strip tags, trim. -/
def sanitizeL (l : List Char) : List Char := jsTrimL (stripTags l)

/-- The string branch of `sanitize`. -/
def sanitizeStr (s : String) : String := ⟨sanitizeL s.data⟩

/-- Embedding of `sanitize` (src/unnamed/part_000): strings are tag-stripped and trimmed,
any non-string input is returned unchanged. -/
def sanitize : JsVal → JsVal
  | .str s => .str (sanitizeStr s)
  | v => v

/-- Head guard of `noTagStart`: if `c` is `<`, the list after it must start
with `>` (or be empty). -/
def ltOk (c : Char) : List Char → Bool
  | [] => true
  | d :: _ => if c = '<' then decide (d = '>') else true

/-- No tag-like start survives: every `<` in the list is either the last
character or is immediately followed by `>`.  Such a list contains no match
of `/<\/?[^>]+(>|$)/`, so `stripAux` leaves it unchanged. -/
def noTagStart : List Char → Bool
  | [] => true
  | c :: rest => ltOk c rest && noTagStart rest

theorem ltOk_of_ne {c : Char} (h : ¬ c = '<') (w : List Char) : ltOk c w = true := by
  cases w <;> simp [ltOk, h]

theorem ltOk_irrel (c d : Char) (w w' : List Char) : ltOk c (d :: w) = ltOk c (d :: w') := by
  simp [ltOk]

theorem noTagStart_cons {c : Char} {rest : List Char} :
    noTagStart (c :: rest) = (ltOk c rest && noTagStart rest) := rfl

/-- Every output of the tag-stripping scan has no surviving tag-like start. -/
theorem noTagStart_stripAux (l : List Char) : ∀ b, noTagStart (stripAux l b) = true := by
  induction l with
  | nil => intro b; rfl
  | cons c rest ih =>
    intro b
    cases b with
    | true =>
      by_cases hc : c = '>' <;> simp [stripAux, hc, ih]
    | false =>
      by_cases hc : c = '<'
      · subst hc
        cases rest with
        | nil => rfl
        | cons d rest2 =>
          by_cases hd : d = '>'
          · subst hd
            have hA : stripAux ('<' :: '>' :: rest2) false
                = '<' :: stripAux ('>' :: rest2) false := by
              simp [stripAux]
            have hX : stripAux ('>' :: rest2) false = '>' :: stripAux rest2 false := by
              simp [stripAux]
            rw [hA, hX, noTagStart_cons]
            have hg : ltOk '<' ('>' :: stripAux rest2 false) = true := by simp [ltOk]
            rw [hg, Bool.true_and, ← hX]
            exact ih false
          · have hA : stripAux ('<' :: d :: rest2) false = stripAux (d :: rest2) true := by
              simp [stripAux, hd]
            rw [hA]; exact ih true
      · have hA : stripAux (c :: rest) false = c :: stripAux rest false := by
          simp [stripAux, hc]
        rw [hA, noTagStart_cons, ltOk_of_ne hc, Bool.true_and]
        exact ih false

/-- A list with no tag-like start is a fixed point of the stripping scan. -/
theorem stripAux_fix : ∀ {l : List Char}, noTagStart l = true → stripAux l false = l := by
  intro l
  induction l with
  | nil => intro _; rfl
  | cons c rest ih =>
    intro h
    rw [noTagStart_cons, Bool.and_eq_true] at h
    obtain ⟨hg, h2⟩ := h
    by_cases hc : c = '<'
    · subst hc
      cases rest with
      | nil => rfl
      | cons d rest2 =>
        have hd : d = '>' := by simpa [ltOk] using hg
        subst hd
        have hA : stripAux ('<' :: '>' :: rest2) false
            = '<' :: stripAux ('>' :: rest2) false := by
          simp [stripAux]
        rw [hA, ih h2]
    · have hA : stripAux (c :: rest) false = c :: stripAux rest false := by
        simp [stripAux, hc]
      rw [hA, ih h2]

theorem stripTags_fix {l : List Char} (h : noTagStart l = true) : stripTags l = l :=
  stripAux_fix h

theorem noTagStart_append_left {xs ys : List Char} (h : noTagStart (xs ++ ys) = true) :
    noTagStart xs = true := by
  induction xs with
  | nil => rfl
  | cons c xs' ih =>
    rw [List.cons_append, noTagStart_cons, Bool.and_eq_true] at h
    obtain ⟨hg, h2⟩ := h
    rw [noTagStart_cons, ih h2, Bool.and_true]
    cases xs' with
    | nil => cases ys <;> simp [ltOk]
    | cons d w => rw [List.cons_append] at hg; rw [ltOk_irrel c d w (w ++ ys)]; exact hg

theorem noTagStart_dropWhile (p : Char → Bool) :
    ∀ {l : List Char}, noTagStart l = true → noTagStart (l.dropWhile p) = true := by
  intro l
  induction l with
  | nil => intro h; exact h
  | cons c rest ih =>
    intro h
    rw [noTagStart_cons, Bool.and_eq_true] at h
    by_cases hp : p c
    · rw [List.dropWhile_cons_of_pos hp]; exact ih h.2
    · rw [List.dropWhile_cons_of_neg hp, noTagStart_cons, h.1, h.2]; rfl

theorem length_dropWhile_le (p : Char → Bool) (l : List Char) :
    (l.dropWhile p).length ≤ l.length := by
  induction l with
  | nil => exact Nat.le_refl 0
  | cons c rest ih =>
    by_cases hp : p c
    · rw [List.dropWhile_cons_of_pos hp]; exact Nat.le_succ_of_le ih
    · rw [List.dropWhile_cons_of_neg hp]

theorem dropWhile_self_idem (p : Char → Bool) (l : List Char) :
    (l.dropWhile p).dropWhile p = l.dropWhile p := by
  induction l with
  | nil => rfl
  | cons c rest ih =>
    by_cases hp : p c
    · rw [List.dropWhile_cons_of_pos hp]; exact ih
    · rw [List.dropWhile_cons_of_neg hp, List.dropWhile_cons_of_neg hp]

theorem dropWhile_eq_self_of_append (p : Char → Bool) {y t : List Char}
    (h : List.dropWhile p (y ++ t) = y ++ t) : List.dropWhile p y = y := by
  cases y with
  | nil => rfl
  | cons c y' =>
    by_cases hp : p c
    · exfalso
      rw [List.cons_append, List.dropWhile_cons_of_pos hp] at h
      have hl := length_dropWhile_le p (y' ++ t)
      rw [h] at hl
      simp at hl
    · rw [List.dropWhile_cons_of_neg hp]

/-- Decomposition of the trailing-drop: a list is its right-trimmed part
followed by the dropped tail. -/
theorem rstrip_decomp (p : Char → Bool) (x : List Char) :
    x = (x.reverse.dropWhile p).reverse ++ (x.reverse.takeWhile p).reverse := by
  conv_lhs => rw [← x.reverse_reverse]
  rw [← List.takeWhile_append_dropWhile (p := p) (l := x.reverse), List.reverse_append]
  simp

theorem jsTrimL_eq (l : List Char) :
    jsTrimL l = ((l.dropWhile isWs).reverse.dropWhile isWs).reverse := rfl

theorem dropWhile_eq_self_of_decomp (p : Char → Bool) {x y t : List Char}
    (h1 : x = y ++ t) (h2 : x.dropWhile p = x) : y.dropWhile p = y := by
  subst h1; exact dropWhile_eq_self_of_append p h2

theorem noTagStart_jsTrimL {l : List Char} (h : noTagStart l = true) :
    noTagStart (jsTrimL l) = true := by
  have h1 : noTagStart (l.dropWhile isWs) = true := noTagStart_dropWhile isWs h
  have hdec := rstrip_decomp isWs (l.dropWhile isWs)
  rw [← jsTrimL_eq] at hdec
  exact noTagStart_append_left (hdec ▸ h1)

theorem jsTrimL_idem (l : List Char) : jsTrimL (jsTrimL l) = jsTrimL l := by
  have hdx : (l.dropWhile isWs).dropWhile isWs = l.dropWhile isWs := dropWhile_self_idem isWs l
  have hxy := rstrip_decomp isWs (l.dropWhile isWs)
  rw [← jsTrimL_eq] at hxy
  have hdy : (jsTrimL l).dropWhile isWs = jsTrimL l :=
    dropWhile_eq_self_of_decomp isWs hxy hdx
  have hyrev : (jsTrimL l).reverse = (l.dropWhile isWs).reverse.dropWhile isWs := by
    rw [jsTrimL_eq, List.reverse_reverse]
  have hdyr : (jsTrimL l).reverse.dropWhile isWs = (jsTrimL l).reverse := by
    rw [hyrev]
    exact dropWhile_self_idem isWs (l.dropWhile isWs).reverse
  rw [jsTrimL_eq (jsTrimL l), hdy, hdyr, List.reverse_reverse]

/-- The sanitizer is idempotent at the character-list level: its output has no
surviving tag-like start, hence the second strip is the identity, and trimming
is idempotent. -/
theorem sanitizeL_idem (l : List Char) : sanitizeL (sanitizeL l) = sanitizeL l := by
  have h1 : noTagStart (stripTags l) = true := noTagStart_stripAux l false
  have h2 : noTagStart (jsTrimL (stripTags l)) = true := noTagStart_jsTrimL h1
  show jsTrimL (stripTags (jsTrimL (stripTags l))) = jsTrimL (stripTags l)
  rw [stripTags_fix h2, jsTrimL_idem]

theorem sanitizeStr_idem (s : String) : sanitizeStr (sanitizeStr s) = sanitizeStr s :=
  congrArg String.mk (sanitizeL_idem s.data)

theorem sanitize_idem (v : JsVal) : sanitize (sanitize v) = sanitize v := by
  cases v <;> simp [sanitize, sanitizeStr_idem]

theorem noTagStart_sanitizeL (l : List Char) : noTagStart (sanitizeL l) = true :=
  noTagStart_jsTrimL (noTagStart_stripAux l false)

theorem sanitizeL_trimmed (l : List Char) : jsTrimL (sanitizeL l) = sanitizeL l := by
  show jsTrimL (jsTrimL (stripTags l)) = jsTrimL (stripTags l)
  rw [jsTrimL_idem]

/-! ## Regular-expression tests used by the two apps

Each `...Test` function decides the corresponding anchored JS regex on the
character list of the (coerced) string. -/

/-- Character class `[a-zA-Z0-9_]` of `/^[a-zA-Z0-9_]+$/` (username). -/
def usernameChar (c : Char) : Bool :=
  ('a' ≤ c && c ≤ 'z') || ('A' ≤ c && c ≤ 'Z') || ('0' ≤ c && c ≤ '9') || c = '_'

/-- Test of `/^[a-zA-Z0-9_]+$/` : nonempty and all characters in the class. -/
def usernameRegexTest (l : List Char) : Bool :=
  !l.isEmpty && l.all usernameChar

/-- Character class `[a-zA-Z0-9-_]` of `/^[a-zA-Z0-9-_]+$/` (gameId). -/
def gameIdChar (c : Char) : Bool := usernameChar c || c = '-'

/-- Test of `/^[a-zA-Z0-9-_]+$/`. -/
def gameIdRegexTest (l : List Char) : Bool :=
  !l.isEmpty && l.all gameIdChar

/-- Test of `/^\+?[0-9]\x7b10,15\x7d$/` : an optional leading `+` (consumed when
present, since `+` is not a digit), then 10 to 15 digits. -/
def phoneRegexTest (l : List Char) : Bool :=
  let t := match l with
    | '+' :: r => r
    | _ => l
  10 ≤ t.length && t.length ≤ 15 && t.all Char.isDigit

/-- Test of `/^\S+@\S+\.\S+$/` (src/server.js email check): every character is
non-whitespace, and there are positions `i < j` with `l[i] = '@'`, at least
one character before the `@`, at least one strictly between `@` and the `.`,
and at least one after the `.` — the backtracking `\S+` groups absorb
everything else. -/
def emailRegexTestS (l : List Char) : Bool :=
  l.all (fun c => !(isWs c)) &&
  ((List.range l.length).any fun i =>
    decide (l.getD i ' ' = '@') && decide (1 ≤ i) &&
    ((List.range l.length).any fun j =>
      decide (i + 2 ≤ j) && decide (j + 2 ≤ l.length) && decide (l.getD j ' ' = '.')))

/-- Test of `/^[^\s@]+@[^\s@]+\.[^\s@]+$/` (src/unnamed/part_000 email check):
as above, but `[^\s@]` additionally excludes `@`, so the string contains
exactly one `@` — no character besides position `i` may be an `@`. -/
def emailRegexTestP (l : List Char) : Bool :=
  l.all (fun c => !(isWs c)) &&
  ((List.range l.length).any fun i =>
    decide (l.getD i ' ' = '@') && decide (1 ≤ i) &&
    ((List.range l.length).all fun k => decide (k = i) || decide (l.getD k ' ' ≠ '@')) &&
    ((List.range l.length).any fun j =>
      decide (i + 2 ≤ j) && decide (j + 2 ≤ l.length) && decide (l.getD j ' ' = '.')))

/-! ## Field validators of src/unnamed/part_000 (`validators.*`)

Date parsing (`new Date(value)`) is not decidable from the source alone, so it
is a parameter `pd : JsVal → Option Int` of every definition that needs it:
`pd v = some d` models a valid parse with timestamp `d` ms, `pd v = none`
models an invalid date (`getTime()` is `NaN`; every comparison with `NaN` is
false).  `now : Nat` is the current epoch-millisecond clock. -/

/-- Embedding of `validators.username` (part_000 line 30). -/
def vUsername (v : JsVal) : Bool :=
  match v with
  | .str s =>
    decide (3 ≤ (jsTrim s).length) && decide ((jsTrim s).length ≤ 50)
      && usernameRegexTest s.data
  | _ => false

/-- Embedding of `validators.email` (part_000 line 33). -/
def vEmail (v : JsVal) : Bool :=
  match v with
  | .str s => emailRegexTestP s.data && decide (s.length ≤ 100)
  | _ => false

/-- Embedding of `validators.gameId` (part_000 line 36): optional field. -/
def vGameId (v : JsVal) : Bool :=
  if !v.truthy then true
  else
    match v with
    | .str s => decide ((jsTrim s).length ≤ 50) && gameIdRegexTest s.data
    | _ => false

/-- Embedding of `validators.platform` (part_000 line 41): strict equality with the tag. -/
def vPlatform (v : JsVal) : Bool := v = .str "PENASLOT"

/-- The closed set of issue categories (part_000 line 45). -/
def validIssueTypes : List String :=
  ["Deposit/Penarikan Bermasalah", "Kerusakan Game", "Masalah Akses Akun",
   "Masalah Bonus/Promosi", "Kesalahan Proses Pembayaran", "Logout Tiba-tiba",
   "Masalah Pembayaran Jackpot", "Lainnya"]

/-- Embedding of `validators.issueType` (part_000 line 44). -/
def vIssueType (v : JsVal) : Bool :=
  match v with
  | .str s => validIssueTypes.contains s
  | _ => false

/-- Embedding of `validators.description` (part_000 line 48). -/
def vDescription (v : JsVal) : Bool :=
  match v with
  | .str s => decide (0 < (jsTrim s).length) && decide ((jsTrim s).length ≤ 2000)
  | _ => false

/-- Embedding of `validators.dateOfIssue` (part_000 line 51): the parse is valid and not
later than now. -/
def vDateOfIssue (pd : JsVal → Option Int) (now : Nat) (v : JsVal) : Bool :=
  match pd v with
  | some d => decide (d ≤ (now : Int))
  | none => false

/-- Embedding of `validators.phoneNumber` (part_000 line 57). -/
def vPhoneNumber (v : JsVal) : Bool :=
  match v with
  | .str s => phoneRegexTest s.data
  | _ => false

/-- A complaint submission body (§3 of the spec; `req.body` destructuring). -/
structure Body where
  username : JsVal
  email : JsVal
  gameId : JsVal
  platform : JsVal
  issueType : JsVal
  description : JsVal
  dateOfIssue : JsVal
  phoneNumber : JsVal
deriving DecidableEq, Repr

/-- Sequential conditional insertion into the `validationErrors` object:
for each `(key, message, ok)` in source order, insert `key ↦ message`
when the check failed.  Every check is evaluated; there is no early exit. -/
def errsOf : List (String × String × Bool) → List (String × String)
  | [] => []
  | (k, m, ok) :: rest => (if ok then [] else [(k, m)]) ++ errsOf rest

/-- The eight checks of the part_000 handler (lines 89–96), in source order. -/
def fieldChecksP (pd : JsVal → Option Int) (now : Nat) (b : Body) :
    List (String × String × Bool) :=
  [("username", "Username tidak valid", vUsername b.username),
   ("email", "Email tidak valid", vEmail b.email),
   ("platform", "Platform tidak valid", vPlatform b.platform),
   ("issueType", "Jenis issue tidak valid", vIssueType b.issueType),
   ("description", "Deskripsi tidak valid", vDescription b.description),
   ("dateOfIssue", "Tanggal masalah tidak valid", vDateOfIssue pd now b.dateOfIssue),
   ("phoneNumber", "Nomor telepon tidak valid", vPhoneNumber b.phoneNumber),
   ("gameId", "ID game tidak valid", vGameId b.gameId)]

/-- The `validationErrors` object of the part_000 handler. -/
def validationErrorsP (pd : JsVal → Option Int) (now : Nat) (b : Body) :
    List (String × String) :=
  errsOf (fieldChecksP pd now b)

/-! ## src/server.js : token store, CSRF middleware, issuance, handler -/

/-- A stored CSRF record: `{token, expires}` (epoch ms). -/
structure TokenRecord where
  token : String
  expires : Nat
deriving DecidableEq, Repr

/-- The process-wide `tokenStore : Map sessionId ↦ TokenRecord`, modelled
pointwise (`Map.get` / `Map.set` / `Map.delete` are key-based, and the sweep
deletes entries independently, so the map is determined by this function). -/
abbrev TokenStore := String → Option TokenRecord

/-- The empty store. -/
def emptyStore : TokenStore := fun _ => none

/-- Embedding of `tokenStore.set k v`. -/
def TokenStore.set (s : TokenStore) (k : String) (v : TokenRecord) : TokenStore :=
  fun k2 => if k2 = k then some v else s k2

/-- Embedding of `tokenStore.delete k`. -/
def TokenStore.erase (s : TokenStore) (k : String) : TokenStore :=
  fun k2 => if k2 = k then none else s k2

/-- The expiry sweep of `GET /get-csrf-token` (server.js lines 67–71):
delete every entry with `expires < Date.now()`. -/
def TokenStore.sweep (s : TokenStore) (now : Nat) : TokenStore :=
  fun k =>
    match s k with
    | some d => if d.expires < now then none else some d
    | none => none

/-- JS truthiness of a cookie read: absent (`undefined`) or empty is falsy. -/
def truthyCookie : Option String → Bool
  | none => false
  | some s => s ≠ ""

/-- An HTTP JSON response envelope as produced by the handlers. -/
structure Response where
  status : Nat
  success : Bool
  message : Option String
  errors : List (String × String)
  referenceNumber : Option String
deriving DecidableEq, Repr

/-- The `validateCsrfToken` middleware (server.js lines 92–116): `some r` means
the request is rejected with response `r`; `none` means `next()` is called. -/
def csrfReject (store : TokenStore) (sessionId csrfToken : Option String)
    (now : Nat) : Option Response :=
  if !truthyCookie sessionId || !truthyCookie csrfToken then
    some ⟨403, false, some "Gagal memverifikasi permintaan. Coba lagi.", [], none⟩
  else
    match store (sessionId.getD "") with
    | none => some ⟨403, false, some "Token CSRF tidak valid atau kedaluwarsa.", [], none⟩
    | some d =>
      if d.token ≠ csrfToken.getD "" || d.expires < now then
        some ⟨403, false, some "Token CSRF tidak valid atau kedaluwarsa.", [], none⟩
      else none

/-- Does the middleware let the request through? -/
def validateCsrfToken (store : TokenStore) (sessionId csrfToken : Option String)
    (now : Nat) : Bool :=
  (csrfReject store sessionId csrfToken now).isNone

/-- Endpoint `GET /get-csrf-token` (server.js lines 57–89): pick the session id from
the cookie or mint a fresh one, store a fresh record expiring in 30 minutes,
sweep expired records, return (new store, sessionId cookie, csrfToken
cookie).  `freshId` and `newToken` stand for the `crypto.randomBytes`
outputs. -/
def getCsrfToken (store : TokenStore) (cookieSessionId : Option String)
    (freshId newToken : String) (now : Nat) : TokenStore × String × String :=
  let sessionId := if truthyCookie cookieSessionId then cookieSessionId.getD "" else freshId
  let tokenData : TokenRecord := ⟨newToken, now + 30 * 60 * 1000⟩
  let store1 := store.set sessionId tokenData
  let store2 := store1.sweep now
  (store2, sessionId, newToken)

/-- JS `value.length < n` where `value` need not be a string (`.length` of a
non-string body value is `undefined`, and `undefined < n` is false). -/
def jsLenLt (v : JsVal) (n : Nat) : Bool :=
  match v with
  | .str s => decide (s.length < n)
  | _ => false

/-- JS `value.length > n` (false for non-strings, as above). -/
def jsLenGt (v : JsVal) (n : Nat) : Bool :=
  match v with
  | .str s => decide (n < s.length)
  | _ => false

/-- Embedding of `new Date(v) > new Date()` : false when the parse is invalid (`NaN`
comparisons are false), otherwise a timestamp comparison. -/
def dateInFuture (pd : JsVal → Option Int) (now : Nat) (v : JsVal) : Bool :=
  match pd v with
  | some d => decide ((now : Int) < d)
  | none => false

/-- Sequential conditional insertion, keyed on the source `if` conditions:
for each `(key, message, bad)` in source order, insert `key ↦ message` when
`bad` holds.  Every condition is evaluated; there is no early exit. -/
def errsIf : List (String × String × Bool) → List (String × String)
  | [] => []
  | (k, m, bad) :: rest => (if bad then [(k, m)] else []) ++ errsIf rest

/-- server.js line 126: `!username || username.length < 3 || username.length > 50`. -/
def sUsernameBad (v : JsVal) : Bool := !v.truthy || jsLenLt v 3 || jsLenGt v 50

/-- server.js line 127: `!email || !/^\S+@\S+\.\S+$/.test(email)`. -/
def sEmailBad (v : JsVal) : Bool := !v.truthy || !emailRegexTestS v.jsToString.data

/-- server.js line 128: `!issueType`. -/
def sIssueTypeBad (v : JsVal) : Bool := !v.truthy

/-- server.js line 129: `!description || description.length > 2000`. -/
def sDescriptionBad (v : JsVal) : Bool := !v.truthy || jsLenGt v 2000

/-- server.js line 130: `!dateOfIssue || new Date(dateOfIssue) > new Date()`. -/
def sDateOfIssueBad (pd : JsVal → Option Int) (now : Nat) (v : JsVal) : Bool :=
  !v.truthy || dateInFuture pd now v

/-- server.js line 131: `!phoneNumber || !/^\+?[0-9]{10,15}$/.test(phoneNumber)`. -/
def sPhoneNumberBad (v : JsVal) : Bool := !v.truthy || !phoneRegexTest v.jsToString.data

/-- The six inline checks of the server.js handler (lines 126–131), in source
order, each given by its failure condition. -/
def serverFieldChecks (pd : JsVal → Option Int) (b : Body) (now : Nat) :
    List (String × String × Bool) :=
  [("username", "Username tidak valid", sUsernameBad b.username),
   ("email", "Email tidak valid", sEmailBad b.email),
   ("issueType", "Jenis keluhan tidak valid", sIssueTypeBad b.issueType),
   ("description", "Deskripsi tidak valid", sDescriptionBad b.description),
   ("dateOfIssue", "Tanggal tidak valid", sDateOfIssueBad pd now b.dateOfIssue),
   ("phoneNumber", "Nomor telepon tidak valid", sPhoneNumberBad b.phoneNumber)]

/-- The `validationErrors` object of the server.js handler. -/
def serverValidationErrors (pd : JsVal → Option Int) (b : Body) (now : Nat) :
    List (String × String) :=
  errsIf (serverFieldChecks pd b now)

/-- Fuel-indexed decimal digits, most significant first. -/
def digitsAux : Nat → Nat → List Char
  | 0, _ => []
  | fuel + 1, n =>
    if n < 10 then [Nat.digitChar n]
    else digitsAux fuel (n / 10) ++ [Nat.digitChar (n % 10)]

/-- JS `n.toString()` for a non-negative integral number: decimal digits. -/
def decimalRepr (n : Nat) : List Char := digitsAux (n + 1) n

/-- JS `s.slice(-8)` : the last 8 characters (the whole string if shorter). -/
def jsSliceLast8 (l : List Char) : List Char := (l.reverse.take 8).reverse

/-- The reference number (server.js line 142,
part_000 line 120). -/
def refNumber (now : Nat) : String := "PENA-" ++ ⟨jsSliceLast8 (decimalRepr now)⟩

/-- Outcome of the `transport.sendMail` callback. -/
inductive MailResult where
  | ok
  | err
deriving DecidableEq, Repr

/-- The `mailOptions.subject` of server.js (line 156): raw body values coerced by
the template literal. -/
def mailSubject (b : Body) (ref : String) : String :=
  "PENASLOT Complaint: " ++ b.issueType.jsToString ++ " - "
    ++ b.username.jsToString ++ " - " ++ ref

/-- The `mailOptions.text` of server.js (lines 157–171): the template literal
with the raw body values spliced in. -/
def mailText (b : Body) (ref : String) : String :=
  "\nPENASLOT Customer Complaint\n\nNomor Referensi: " ++ ref
    ++ "\nUsername: " ++ b.username.jsToString
    ++ "\nEmail: " ++ b.email.jsToString
    ++ "\nNomor Whatsapp: " ++ b.phoneNumber.jsToString
    ++ "\nPlatform: " ++ b.platform.jsToString
    ++ "\nJenis Kendala: " ++ b.issueType.jsToString
    ++ "\nGame ID: " ++ (if b.gameId.truthy then b.gameId.jsToString else "N/A")
    ++ "\nTanggal: " ++ b.dateOfIssue.jsToString
    ++ "\n\nDescription:\n" ++ b.description.jsToString
    ++ "\n      "

/-- An inbound `POST /send-complaint` request: the two cookies and the body. -/
structure Request where
  sessionId : Option String
  csrfToken : Option String
  body : Body

/-- The `POST /send-complaint` pipeline of server.js (middleware at line 119,
handler lines 119–192): CSRF check, field checks, mail relay, token
consumption.  Returns the response and the resulting token store. -/
def sendComplaint (pd : JsVal → Option Int) (store : TokenStore) (req : Request)
    (now : Nat) (mail : MailResult) : Response × TokenStore :=
  match csrfReject store req.sessionId req.csrfToken now with
  | some r => (r, store)
  | none =>
    let errs := serverValidationErrors pd req.body now
    if errs ≠ [] then
      (⟨400, false, some "Data tidak valid", errs, none⟩, store)
    else
      match mail with
      | .err => (⟨500, false, some "Gagal mengirim email", [], none⟩, store)
      | .ok =>
        let store2 :=
          if truthyCookie req.sessionId then store.erase (req.sessionId.getD "")
          else store
        (⟨200, true, none, [], some (refNumber now)⟩, store2)

/-! ## Claim-side (spec-side) predicates -/

/-- The C1 rejection condition exactly as the claim states it, with the
claim's invariant `valid iff now < expiresAt`: reject iff a cookie is absent,
no record exists, the stored token differs, or the record is not valid. -/
def c1ClaimRejects (store : TokenStore) (sid tok : Option String) (now : Nat) : Prop :=
  sid = none ∨ tok = none ∨
  (∃ s, sid = some s ∧ store s = none) ∨
  (∃ s d, sid = some s ∧ store s = some d ∧ d.token ≠ tok.getD "") ∨
  (∃ s d, sid = some s ∧ store s = some d ∧ ¬ now < d.expires)

/-- The amended C1 rejection condition matching the code: a cookie that is
absent *or empty* is treated as missing, and a record counts as expired only
when `expires < now` (valid iff `now ≤ expiresAt`). -/
def c1AmendedRejects (store : TokenStore) (sid tok : Option String) (now : Nat) : Prop :=
  sid = none ∨ sid = some "" ∨ tok = none ∨ tok = some "" ∨
  (∃ s, sid = some s ∧ store s = none) ∨
  (∃ s d, sid = some s ∧ store s = some d ∧ d.token ≠ tok.getD "") ∨
  (∃ s d, sid = some s ∧ store s = some d ∧ d.expires < now)

/-- C1 (counterexample): the middleware does not fail closed in the sense of
the claim's strict invariant.  At `now = expires` — where the claim's
invariant says the record is no longer valid and the request must be
rejected — the middleware lets the request through
(`storedTokenData.expires < Date.now()` is false). -/
theorem csrf_fail_closed_counterexample :
    ¬ ∀ (store : TokenStore) (sid tok : Option String) (now : Nat),
        (validateCsrfToken store sid tok now = false ↔ c1ClaimRejects store sid tok now) := by
  intro h
  have h3 : c1ClaimRejects (TokenStore.set emptyStore "s" ⟨"t", 100⟩)
      (some "s") (some "t") 100 := by
    refine Or.inr (Or.inr (Or.inr (Or.inr ⟨"s", ⟨"t", 100⟩, rfl, ?_, ?_⟩)))
    · show (if "s" = "s" then some (⟨"t", 100⟩ : TokenRecord) else emptyStore "s")
        = some ⟨"t", 100⟩
      simp
    · decide
  have h2 := (h (TokenStore.set emptyStore "s" ⟨"t", 100⟩) (some "s") (some "t") 100).mpr h3
  have h4 : validateCsrfToken (TokenStore.set emptyStore "s" ⟨"t", 100⟩)
      (some "s") (some "t") 100 = true := by decide
  rw [h4] at h2
  exact Bool.noConfusion h2

/-- C1 (amended): `POST /send-complaint` is rejected by the CSRF middleware
with status 403 and `success:false` if and only if the sessionId or csrfToken
cookie is absent or empty, no record exists for the session identifier, the
stored token does not exactly equal the csrfToken cookie, or the record has
expired — where a record is valid iff `now ≤ expiresAt`. -/
theorem csrf_fail_closed_iff (store : TokenStore) (sid tok : Option String) (now : Nat) :
    (∃ r, csrfReject store sid tok now = some r ∧ r.status = 403 ∧ r.success = false) ↔
      c1AmendedRejects store sid tok now := by
  cases sid with
  | none => simp [csrfReject, truthyCookie, c1AmendedRejects]
  | some s =>
    by_cases hs : s = ""
    · subst hs; simp [csrfReject, truthyCookie, c1AmendedRejects]
    · cases tok with
      | none => simp [csrfReject, truthyCookie, c1AmendedRejects, hs]
      | some t =>
        by_cases ht : t = ""
        · subst ht; simp [csrfReject, truthyCookie, c1AmendedRejects, hs]
        · cases hst : store s with
          | none => simp [csrfReject, truthyCookie, c1AmendedRejects, hs, ht, hst]
          | some d =>
            by_cases htk : d.token = t
            · by_cases hex : d.expires < now
              · simp [csrfReject, truthyCookie, c1AmendedRejects, hs, ht, hst, htk, hex]
              · simp [csrfReject, truthyCookie, c1AmendedRejects, hs, ht, hst, htk, hex]
            · simp [csrfReject, truthyCookie, c1AmendedRejects, hs, ht, hst, htk]

/-! ## Token store / issuance helper lemmas -/

theorem getCsrfToken_lookup_self (store : TokenStore) (c : Option String)
    (freshId newToken : String) (now : Nat) :
    (getCsrfToken store c freshId newToken now).1
        ((getCsrfToken store c freshId newToken now).2.1)
      = some ⟨newToken, now + 30 * 60 * 1000⟩ := by
  have hlt : ¬ (now + 30 * 60 * 1000 < now) := by omega
  simp [getCsrfToken, TokenStore.sweep, TokenStore.set, hlt]

theorem getCsrfToken_sweeps (store : TokenStore) (c : Option String)
    (freshId newToken : String) (now : Nat) (k : String) (d : TokenRecord)
    (h : (getCsrfToken store c freshId newToken now).1 k = some d) :
    ¬ d.expires < now := by
  simp only [getCsrfToken, TokenStore.sweep] at h
  revert h
  cases hk : TokenStore.set store
      (if truthyCookie c then c.getD "" else freshId) ⟨newToken, now + 30 * 60 * 1000⟩ k with
  | none => intro h; exact Option.noConfusion h
  | some e =>
    intro h
    by_cases he : e.expires < now
    · simp [he] at h
    · simp [he] at h
      exact h ▸ he

theorem getCsrfToken_frame (store : TokenStore) (c : Option String)
    (freshId newToken : String) (now : Nat) (k : String)
    (hk : k ≠ (getCsrfToken store c freshId newToken now).2.1) :
    (getCsrfToken store c freshId newToken now).1 k = store.sweep now k := by
  simp only [getCsrfToken] at hk ⊢
  simp [TokenStore.sweep, TokenStore.set, if_neg hk]

theorem getCsrfToken_sid_ne (store : TokenStore) (c : Option String)
    (freshId newToken : String) (now : Nat) (hf : freshId ≠ "") :
    (getCsrfToken store c freshId newToken now).2.1 ≠ "" := by
  simp only [getCsrfToken]
  cases c with
  | none => simpa [truthyCookie] using hf
  | some s =>
    by_cases hs : s = ""
    · simpa [truthyCookie, hs] using hf
    · simp [truthyCookie, hs]

/-- C8: token issuance stores a fresh record for the requesting session
(overwriting any previous one) with expiry `now + 30` minutes, returns that
token, and sweeps the store: afterwards no record whose expiry is in the past
remains; every other session's record is exactly its swept value. -/
theorem token_issue_overwrite_and_sweep (store : TokenStore) (c : Option String)
    (freshId newToken : String) (now : Nat) :
    ((getCsrfToken store c freshId newToken now).1
        ((getCsrfToken store c freshId newToken now).2.1)
      = some ⟨newToken, now + 30 * 60 * 1000⟩)
    ∧ (getCsrfToken store c freshId newToken now).2.2 = newToken
    ∧ (∀ k d, (getCsrfToken store c freshId newToken now).1 k = some d →
        ¬ d.expires < now)
    ∧ (∀ k, k ≠ (getCsrfToken store c freshId newToken now).2.1 →
        (getCsrfToken store c freshId newToken now).1 k = store.sweep now k) :=
  ⟨getCsrfToken_lookup_self store c freshId newToken now, rfl,
   fun k d h => getCsrfToken_sweeps store c freshId newToken now k d h,
   fun k hk => getCsrfToken_frame store c freshId newToken now k hk⟩

/-- C8 witness: the theorem evaluated on a concrete store holding an expired
record (`expires = 5 < now = 10`) and a live record under the issuing session. -/
theorem token_issue_overwrite_and_sweep_witness :
    ((getCsrfToken (TokenStore.set emptyStore "old" ⟨"x", 5⟩) (some "sid")
        "f" "tok" 10).1 "sid" = some ⟨"tok", 10 + 30 * 60 * 1000⟩)
    ∧ ((getCsrfToken (TokenStore.set emptyStore "old" ⟨"x", 5⟩) (some "sid")
        "f" "tok" 10).1 "old" = none)
    ∧ (5 : Nat) < 10 := by
  refine ⟨?_, by decide, by decide⟩
  have h := (token_issue_overwrite_and_sweep (TokenStore.set emptyStore "old" ⟨"x", 5⟩)
    (some "sid") "f" "tok" 10).1
  have hsid : (getCsrfToken (TokenStore.set emptyStore "old" ⟨"x", 5⟩) (some "sid")
      "f" "tok" 10).2.1 = "sid" := by decide
  rw [hsid] at h
  exact h

/-! ## Handler helper lemmas -/

theorem csrfReject_shape (store : TokenStore) (sid tok : Option String) (now : Nat)
    (r : Response) (h : csrfReject store sid tok now = some r) :
    r.status = 403 ∧ r.success = false ∧ r.referenceNumber = none := by
  unfold csrfReject at h
  split at h
  · obtain rfl := Option.some.inj h
    exact ⟨rfl, rfl, rfl⟩
  · split at h
    · obtain rfl := Option.some.inj h
      exact ⟨rfl, rfl, rfl⟩
    · split at h
      · obtain rfl := Option.some.inj h
        exact ⟨rfl, rfl, rfl⟩
      · exact Option.noConfusion h

theorem csrfReject_none_props (store : TokenStore) (sid tok : Option String) (now : Nat)
    (h : csrfReject store sid tok now = none) :
    truthyCookie sid = true ∧ truthyCookie tok = true ∧
      ∃ d, store (sid.getD "") = some d ∧ d.token = tok.getD "" ∧ ¬ d.expires < now := by
  unfold csrfReject at h
  split at h
  · exact Option.noConfusion h
  next hguard =>
    have hguard2 : truthyCookie sid = true ∧ truthyCookie tok = true := by
      constructor <;> revert hguard <;>
        cases truthyCookie sid <;> cases truthyCookie tok <;> simp
    refine ⟨hguard2.1, hguard2.2, ?_⟩
    revert h
    split
    · intro h; exact Option.noConfusion h
    next d hd =>
      intro h
      split at h
      · exact Option.noConfusion h
      next hcond =>
        rw [Bool.or_eq_true, not_or] at hcond
        refine ⟨d, hd, ?_, ?_⟩
        · have := hcond.1
          simpa using this
        · have := hcond.2
          simpa using this

/-! ## C3 : atomicity of the submission with respect to the token store -/

/-- C3: every `POST /send-complaint` request either fully succeeds — status
200, `success:true`, the reference number for the current clock, a token
record existed for the session, and the resulting store is exactly the old
store with that record deleted — or fails with status 400, 403 or 500,
`success:false`, and the token store unchanged. -/
theorem submission_atomic (pd : JsVal → Option Int) (store : TokenStore)
    (req : Request) (now : Nat) (mail : MailResult) :
    ((sendComplaint pd store req now mail).1.status = 200
      ∧ (sendComplaint pd store req now mail).1.success = true
      ∧ (sendComplaint pd store req now mail).1.referenceNumber = some (refNumber now)
      ∧ (∃ d, store (req.sessionId.getD "") = some d)
      ∧ (sendComplaint pd store req now mail).2 = store.erase (req.sessionId.getD ""))
    ∨ (((sendComplaint pd store req now mail).1.status = 400
        ∨ (sendComplaint pd store req now mail).1.status = 403
        ∨ (sendComplaint pd store req now mail).1.status = 500)
      ∧ (sendComplaint pd store req now mail).1.success = false
      ∧ (sendComplaint pd store req now mail).2 = store) := by
  cases hc : csrfReject store req.sessionId req.csrfToken now with
  | some r =>
    have hs := csrfReject_shape _ _ _ _ r hc
    right
    simp [sendComplaint, hc, hs.1, hs.2.1]
  | none =>
    by_cases he : serverValidationErrors pd req.body now = []
    · cases mail with
      | err => right; simp [sendComplaint, hc, he]
      | ok =>
        left
        obtain ⟨ht1, _, d, hd, _, _⟩ := csrfReject_none_props _ _ _ _ hc
        simp [sendComplaint, hc, he, ht1]
        exact ⟨d, hd⟩
    · right; simp [sendComplaint, hc, he]

/-! ## C9 : the middleware is read-only; only issuance and consumption mutate -/

/-- The CSRF middleware as a state transformer over the token store: its body
only performs `tokenStore.get`, so the embedding pairs its decision with the
unchanged store. -/
def csrfMiddlewareStep (store : TokenStore) (sid tok : Option String) (now : Nat) :
    Option Response × TokenStore :=
  (csrfReject store sid tok now, store)

/-- C9: the CSRF middleware never changes the token store, and the submission
pipeline changes it exactly when it responds 200 — in which case the change
is precisely the deletion of the session's record (issuance, modelled by
`getCsrfToken`, is the only other mutating operation). -/
theorem token_store_frame (pd : JsVal → Option Int) (store store2 : TokenStore)
    (req : Request) (now t : Nat) (mail : MailResult) (sid tok : Option String) :
    (csrfMiddlewareStep store2 sid tok t).2 = store2
    ∧ (sendComplaint pd store req now mail).2 =
        (if (sendComplaint pd store req now mail).1.status = 200
         then store.erase (req.sessionId.getD "") else store) := by
  refine ⟨rfl, ?_⟩
  cases hc : csrfReject store req.sessionId req.csrfToken now with
  | some r =>
    have hs := csrfReject_shape _ _ _ _ r hc
    simp [sendComplaint, hc, hs.1]
  | none =>
    by_cases he : serverValidationErrors pd req.body now = []
    · cases mail with
      | err => simp [sendComplaint, hc, he]
      | ok =>
        obtain ⟨ht1, _, _⟩ := csrfReject_none_props _ _ _ _ hc
        simp [sendComplaint, hc, he, ht1]
    · simp [sendComplaint, hc, he]

/-! ## C2 : one-time use of a CSRF token -/

/-- C2: issue a token (`GET /get-csrf-token`) and submit with the returned
session cookies.  If the random identifiers are non-empty, the first
submission happens within the 30-minute expiry, the body passes validation
and the relay succeeds, then that first submission succeeds (200), and —
because the handler deletes the session's record after the successful send —
any second submission with the very same cookies is rejected 403 with
`success:false`, at any time and whatever the relay would do. -/
theorem csrf_token_one_time (pd : JsVal → Option Int) (store : TokenStore)
    (c : Option String) (fresh tok : String) (t t1 : Nat) (b : Body)
    (hf : fresh ≠ "") (htok : tok ≠ "")
    (hexp : ¬ t + 30 * 60 * 1000 < t1)
    (hval : serverValidationErrors pd b t1 = []) :
    (sendComplaint pd (getCsrfToken store c fresh tok t).1
        ⟨some (getCsrfToken store c fresh tok t).2.1, some tok, b⟩ t1 .ok).1.status = 200
    ∧ (sendComplaint pd (getCsrfToken store c fresh tok t).1
        ⟨some (getCsrfToken store c fresh tok t).2.1, some tok, b⟩ t1 .ok).1.success = true
    ∧ ∀ (t2 : Nat) (mail : MailResult),
        ((sendComplaint pd
            (sendComplaint pd (getCsrfToken store c fresh tok t).1
              ⟨some (getCsrfToken store c fresh tok t).2.1, some tok, b⟩ t1 .ok).2
            ⟨some (getCsrfToken store c fresh tok t).2.1, some tok, b⟩ t2 mail).1.status = 403
         ∧ (sendComplaint pd
            (sendComplaint pd (getCsrfToken store c fresh tok t).1
              ⟨some (getCsrfToken store c fresh tok t).2.1, some tok, b⟩ t1 .ok).2
            ⟨some (getCsrfToken store c fresh tok t).2.1, some tok, b⟩ t2 mail).1.success
              = false) := by
  have hsid := getCsrfToken_sid_ne store c fresh tok t hf
  have hlook := getCsrfToken_lookup_self store c fresh tok t
  have hcsrf1 : csrfReject (getCsrfToken store c fresh tok t).1
      (some (getCsrfToken store c fresh tok t).2.1) (some tok) t1 = none := by
    simp [csrfReject, truthyCookie, hsid, htok, hlook, hexp]
  have hfirst : sendComplaint pd (getCsrfToken store c fresh tok t).1
      ⟨some (getCsrfToken store c fresh tok t).2.1, some tok, b⟩ t1 .ok
      = (⟨200, true, none, [], some (refNumber t1)⟩,
         ((getCsrfToken store c fresh tok t).1).erase
           (getCsrfToken store c fresh tok t).2.1) := by
    simp [sendComplaint, hcsrf1, hval, truthyCookie, hsid]
  refine ⟨by rw [hfirst], by rw [hfirst], ?_⟩
  intro t2 mail
  have herase : (((getCsrfToken store c fresh tok t).1).erase
      (getCsrfToken store c fresh tok t).2.1)
      ((getCsrfToken store c fresh tok t).2.1) = none := by
    simp [TokenStore.erase]
  have hcsrf2 : csrfReject
      (((getCsrfToken store c fresh tok t).1).erase (getCsrfToken store c fresh tok t).2.1)
      (some (getCsrfToken store c fresh tok t).2.1) (some tok) t2
      = some ⟨403, false, some "Token CSRF tidak valid atau kedaluwarsa.", [], none⟩ := by
    simp [csrfReject, truthyCookie, hsid, htok, herase]
  rw [hfirst]
  constructor <;> simp [sendComplaint, hcsrf2]

/-- C2 witness: concrete run — empty store, no prior session cookie, issue at
`t = 0`, submit a concrete valid body at `t1 = 0`; the first submission
returns 200 and the replay at `t2 = 5` with a successful relay returns 403. -/
theorem csrf_token_one_time_witness :
    ("a" : String) ≠ "" ∧ ("b" : String) ≠ ""
    ∧ ¬ (0 : Nat) + 30 * 60 * 1000 < 0
    ∧ serverValidationErrors (fun _ => some 0)
        ⟨.str "abcd", .str "a@b.c", .undef, .undef, .str "x", .str "d",
         .str "2020-01-01", .str "+1234567890"⟩ 0 = []
    ∧ (sendComplaint (fun _ => some 0) (getCsrfToken emptyStore none "a" "b" 0).1
        ⟨some (getCsrfToken emptyStore none "a" "b" 0).2.1, some "b",
         ⟨.str "abcd", .str "a@b.c", .undef, .undef, .str "x", .str "d",
          .str "2020-01-01", .str "+1234567890"⟩⟩ 0 .ok).1.status = 200
    ∧ (sendComplaint (fun _ => some 0)
        (sendComplaint (fun _ => some 0) (getCsrfToken emptyStore none "a" "b" 0).1
          ⟨some (getCsrfToken emptyStore none "a" "b" 0).2.1, some "b",
           ⟨.str "abcd", .str "a@b.c", .undef, .undef, .str "x", .str "d",
            .str "2020-01-01", .str "+1234567890"⟩⟩ 0 .ok).2
        ⟨some (getCsrfToken emptyStore none "a" "b" 0).2.1, some "b",
         ⟨.str "abcd", .str "a@b.c", .undef, .undef, .str "x", .str "d",
          .str "2020-01-01", .str "+1234567890"⟩⟩ 5 .ok).1.status = 403 := by
  have h := csrf_token_one_time (fun _ => some 0) emptyStore none "a" "b" 0 0
    ⟨.str "abcd", .str "a@b.c", .undef, .undef, .str "x", .str "d",
     .str "2020-01-01", .str "+1234567890"⟩
    (by decide) (by decide) (by decide) (by decide)
  exact ⟨by decide, by decide, by decide, by decide, h.1, (h.2.2 5 .ok).1⟩

/-! ## C4 : exhaustive, non-fail-fast validation -/

theorem errsOf_eq (cs : List (String × String × Bool)) :
    errsOf cs = (cs.filter (fun p => !p.2.2)).map (fun p => (p.1, p.2.1)) := by
  induction cs with
  | nil => rfl
  | cons c rest ih =>
    obtain ⟨k, m, ok⟩ := c
    cases ok <;> simp [errsOf, List.filter_cons, ih]

theorem errsIf_eq (cs : List (String × String × Bool)) :
    errsIf cs = (cs.filter (fun p => p.2.2)).map (fun p => (p.1, p.2.1)) := by
  induction cs with
  | nil => rfl
  | cons c rest ih =>
    obtain ⟨k, m, bad⟩ := c
    cases bad <;> simp [errsIf, List.filter_cons, ih]

theorem mem_errsOf_keys (cs : List (String × String × Bool)) (k : String) :
    (k ∈ (errsOf cs).map Prod.fst) ↔ ∃ m ok, (k, m, ok) ∈ cs ∧ ok = false := by
  induction cs with
  | nil => simp [errsOf]
  | cons c rest ih =>
    obtain ⟨k2, m2, ok2⟩ := c
    cases ok2 <;> (simp [errsOf, ih]; all_goals aesop)

theorem mem_errsIf_keys (cs : List (String × String × Bool)) (k : String) :
    (k ∈ (errsIf cs).map Prod.fst) ↔ ∃ m bad, (k, m, bad) ∈ cs ∧ bad = true := by
  induction cs with
  | nil => simp [errsIf]
  | cons c rest ih =>
    obtain ⟨k2, m2, bad2⟩ := c
    cases bad2 <;> (simp [errsIf, ih]; all_goals aesop)

theorem nodup_errsOf_keys (cs : List (String × String × Bool))
    (h : (cs.map Prod.fst).Nodup) : ((errsOf cs).map Prod.fst).Nodup := by
  rw [errsOf_eq, List.map_map]
  exact List.Nodup.sublist (List.Sublist.map Prod.fst (List.filter_sublist cs)) h

theorem nodup_errsIf_keys (cs : List (String × String × Bool))
    (h : (cs.map Prod.fst).Nodup) : ((errsIf cs).map Prod.fst).Nodup := by
  rw [errsIf_eq, List.map_map]
  exact List.Nodup.sublist (List.Sublist.map Prod.fst (List.filter_sublist cs)) h

/-- C4: field validation is exhaustive and not fail-fast, in both handlers.
The error object equals the map built from *all* checks, keeping exactly the
failed ones with their fixed human-readable messages (so every field's
predicate is evaluated and no passing field contributes a key); its keys are
duplicate-free (one entry per invalid field); and each field's key appears if
and only if that field's own predicate fails — hence a field individually
made invalid contributes exactly its own key, and no valid field ever
appears. -/
theorem validation_exhaustive (pd : JsVal → Option Int) (now : Nat) (b : Body) :
    (validationErrorsP pd now b
        = ((fieldChecksP pd now b).filter (fun p => !p.2.2)).map (fun p => (p.1, p.2.1)))
    ∧ ((validationErrorsP pd now b).map Prod.fst).Nodup
    ∧ (("username" ∈ (validationErrorsP pd now b).map Prod.fst)
        ↔ vUsername b.username = false)
    ∧ (("email" ∈ (validationErrorsP pd now b).map Prod.fst)
        ↔ vEmail b.email = false)
    ∧ (("platform" ∈ (validationErrorsP pd now b).map Prod.fst)
        ↔ vPlatform b.platform = false)
    ∧ (("issueType" ∈ (validationErrorsP pd now b).map Prod.fst)
        ↔ vIssueType b.issueType = false)
    ∧ (("description" ∈ (validationErrorsP pd now b).map Prod.fst)
        ↔ vDescription b.description = false)
    ∧ (("dateOfIssue" ∈ (validationErrorsP pd now b).map Prod.fst)
        ↔ vDateOfIssue pd now b.dateOfIssue = false)
    ∧ (("phoneNumber" ∈ (validationErrorsP pd now b).map Prod.fst)
        ↔ vPhoneNumber b.phoneNumber = false)
    ∧ (("gameId" ∈ (validationErrorsP pd now b).map Prod.fst)
        ↔ vGameId b.gameId = false)
    ∧ (serverValidationErrors pd b now
        = ((serverFieldChecks pd b now).filter (fun p => p.2.2)).map (fun p => (p.1, p.2.1)))
    ∧ ((serverValidationErrors pd b now).map Prod.fst).Nodup
    ∧ (("username" ∈ (serverValidationErrors pd b now).map Prod.fst)
        ↔ sUsernameBad b.username = true)
    ∧ (("email" ∈ (serverValidationErrors pd b now).map Prod.fst)
        ↔ sEmailBad b.email = true)
    ∧ (("issueType" ∈ (serverValidationErrors pd b now).map Prod.fst)
        ↔ sIssueTypeBad b.issueType = true)
    ∧ (("description" ∈ (serverValidationErrors pd b now).map Prod.fst)
        ↔ sDescriptionBad b.description = true)
    ∧ (("dateOfIssue" ∈ (serverValidationErrors pd b now).map Prod.fst)
        ↔ sDateOfIssueBad pd now b.dateOfIssue = true)
    ∧ (("phoneNumber" ∈ (serverValidationErrors pd b now).map Prod.fst)
        ↔ sPhoneNumberBad b.phoneNumber = true) := by
  refine ⟨errsOf_eq _, ?_, ?_, ?_, ?_, ?_, ?_, ?_, ?_, ?_, errsIf_eq _,
    ?_, ?_, ?_, ?_, ?_, ?_, ?_⟩
  · exact nodup_errsOf_keys _ (by simp [fieldChecksP])
  · rw [validationErrorsP, mem_errsOf_keys]; simp [fieldChecksP]
  · rw [validationErrorsP, mem_errsOf_keys]; simp [fieldChecksP]
  · rw [validationErrorsP, mem_errsOf_keys]; simp [fieldChecksP]
  · rw [validationErrorsP, mem_errsOf_keys]; simp [fieldChecksP]
  · rw [validationErrorsP, mem_errsOf_keys]; simp [fieldChecksP]
  · rw [validationErrorsP, mem_errsOf_keys]; simp [fieldChecksP]
  · rw [validationErrorsP, mem_errsOf_keys]; simp [fieldChecksP]
  · rw [validationErrorsP, mem_errsOf_keys]; simp [fieldChecksP]
  · exact nodup_errsIf_keys _ (by simp [serverFieldChecks])
  · rw [serverValidationErrors, mem_errsIf_keys]; simp [serverFieldChecks]
  · rw [serverValidationErrors, mem_errsIf_keys]; simp [serverFieldChecks]
  · rw [serverValidationErrors, mem_errsIf_keys]; simp [serverFieldChecks]
  · rw [serverValidationErrors, mem_errsIf_keys]; simp [serverFieldChecks]
  · rw [serverValidationErrors, mem_errsIf_keys]; simp [serverFieldChecks]
  · rw [serverValidationErrors, mem_errsIf_keys]; simp [serverFieldChecks]

/-! ## C5 : sanitizer idempotence and behaviour -/

/-- C5: `sanitize` is idempotent on every value; on strings its output is
trimmed and contains no surviving tag-like start (every removed `<...>` or
trailing unterminated `<...` stays removed); the `<script>` example reduces
to `alert(1)`; and every non-string input is returned unchanged. -/
theorem sanitize_idempotent_spec :
    (∀ v : JsVal, sanitize (sanitize v) = sanitize v)
    ∧ (∀ s : String, sanitizeStr (sanitizeStr s) = sanitizeStr s)
    ∧ sanitizeStr "<script>alert(1)</script>" = "alert(1)"
    ∧ sanitize (.str "<script>alert(1)</script>") = .str "alert(1)"
    ∧ (∀ s : String, noTagStart (sanitizeStr s).data = true
        ∧ jsTrim (sanitizeStr s) = sanitizeStr s)
    ∧ (∀ n : Int, sanitize (.num n) = .num n)
    ∧ (∀ x : Bool, sanitize (.bool x) = .bool x)
    ∧ sanitize .null = .null
    ∧ sanitize .undef = .undef := by
  refine ⟨sanitize_idem, sanitizeStr_idem, by decide, by decide, ?_,
    fun n => rfl, fun x => rfl, rfl, rfl⟩
  intro s
  exact ⟨noTagStart_sanitizeL s.data, congrArg String.mk (sanitizeL_trimmed s.data)⟩

/-! ## C6 : the username validator -/

/-- The username rule as the claim states it: the value is a string whose
trimmed length lies in `[3, 50]` and whose characters are drawn from
`[A-Za-z0-9_]`. -/
def specUsernameOk (v : JsVal) : Prop :=
  ∃ s, v = .str s ∧ 3 ≤ (jsTrim s).length ∧ (jsTrim s).length ≤ 50
    ∧ s.data.all usernameChar = true

theorem jsTrimL_length_le (l : List Char) : (jsTrimL l).length ≤ l.length := by
  have h1 := length_dropWhile_le isWs l
  have h2 := length_dropWhile_le isWs (l.dropWhile isWs).reverse
  simp only [jsTrimL, List.length_reverse] at *
  omega

theorem jsTrim_length_eq (s : String) : (jsTrim s).length = (jsTrimL s.data).length := rfl

/-- C6: `validators.username` accepts a value iff it is a string with trimmed
length in `[3,50]` all of whose characters are in `[A-Za-z0-9_]`.  (The
regex's nonemptiness requirement is subsumed: a trimmed length of at least 3
forces the string to be nonempty.) -/
theorem username_validator_iff (v : JsVal) :
    vUsername v = true ↔ specUsernameOk v := by
  cases v with
  | str s =>
    constructor
    · intro h
      simp only [vUsername, usernameRegexTest, Bool.and_eq_true, decide_eq_true_eq,
        Bool.not_eq_true'] at h
      refine ⟨s, rfl, ?_, ?_, ?_⟩ <;> tauto
    · rintro ⟨s2, heq, h3, h50, hall⟩
      obtain rfl : s = s2 := JsVal.str.inj heq
      have hlenle : (jsTrim s).length ≤ s.data.length := by
        rw [jsTrim_length_eq]
        exact jsTrimL_length_le s.data
      have hne : s.data.isEmpty = false := by
        cases hd : s.data with
        | nil => rw [hd] at hlenle; simp at hlenle; omega
        | cons a l2 => rfl
      simp only [vUsername, usernameRegexTest, Bool.and_eq_true, decide_eq_true_eq,
        Bool.not_eq_true']
      tauto
  | num n => simp [vUsername, specUsernameOk]
  | bool x => simp [vUsername, specUsernameOk]
  | null => simp [vUsername, specUsernameOk]
  | undef => simp [vUsername, specUsernameOk]

/-! ## C7 : reference number format -/

theorem digitChar_isDigit : ∀ k, k < 10 → Char.isDigit (Nat.digitChar k) = true := by
  decide

theorem digitsAux_all_digits (fuel : Nat) :
    ∀ n, (digitsAux fuel n).all Char.isDigit = true := by
  induction fuel with
  | zero => intro n; rfl
  | succ f ih =>
    intro n
    by_cases h : n < 10
    · simp [digitsAux, h]
      exact digitChar_isDigit n h
    · simp [digitsAux, h, ih]
      exact digitChar_isDigit (n % 10) (Nat.mod_lt n (by omega))

theorem digitsAux_length (fuel : Nat) :
    ∀ n k, n < fuel → 10 ^ k ≤ n → k + 1 ≤ (digitsAux fuel n).length := by
  induction fuel with
  | zero => intro n k h _; omega
  | succ f ih =>
    intro n k hn hk
    by_cases h : n < 10
    · have hk0 : k = 0 := by
        by_contra hne
        have h10 : 10 ^ 1 ≤ 10 ^ k := Nat.pow_le_pow_right (by omega) (by omega)
        simp at h10
        omega
      subst hk0
      simp [digitsAux, h]
    · rw [digitsAux]
      rw [if_neg h]
      cases k with
      | zero => simp
      | succ j =>
        have h1 : 10 ^ j ≤ n / 10 := by
          rw [Nat.le_div_iff_mul_le (by omega)]
          calc 10 ^ j * 10 = 10 ^ (j + 1) := by ring
            _ ≤ n := hk
        have h2 : n / 10 < f := by
          have h3 : n / 10 < n := Nat.div_lt_self (by omega) (by omega)
          omega
        have h4 := ih (n / 10) j h2 h1
        simp only [List.length_append, List.length_cons, List.length_nil]
        omega

theorem decimalRepr_all_digits (n : Nat) : (decimalRepr n).all Char.isDigit = true :=
  digitsAux_all_digits _ n

theorem decimalRepr_length_ge (n k : Nat) (h : 10 ^ k ≤ n) :
    k + 1 ≤ (decimalRepr n).length :=
  digitsAux_length _ n k (Nat.lt_succ_self n) h

theorem all_take {p : Char → Bool} {l : List Char} (h : l.all p = true) (n : Nat) :
    (l.take n).all p = true := by
  rw [List.all_eq_true] at h ⊢
  intro x hx
  exact h x (List.mem_of_mem_take hx)

theorem jsSliceLast8_length (l : List Char) :
    (jsSliceLast8 l).length = min 8 l.length := by
  simp [jsSliceLast8]

theorem jsSliceLast8_all_digits {l : List Char} (h : l.all Char.isDigit = true) :
    (jsSliceLast8 l).all Char.isDigit = true := by
  simp only [jsSliceLast8, List.all_reverse]
  exact all_take (by simpa using h) 8

/-- C7: for every submission that passes the CSRF check and validation, with
a successful mail relay, the handler replies 200 / `success:true` with
`referenceNumber = "PENA-" ++ (last 8 characters of the decimal clock)`; and
whenever the clock has at least 8 digits (`10^7 ≤ now`, true of every real
epoch-millisecond timestamp) that suffix consists of exactly 8 digit
characters — the fixed-prefix + 8-digit pattern. -/
theorem reference_number_format (pd : JsVal → Option Int) (store : TokenStore)
    (req : Request) (now : Nat)
    (hcsrf : csrfReject store req.sessionId req.csrfToken now = none)
    (hval : serverValidationErrors pd req.body now = [])
    (hnow : 10 ^ 7 ≤ now) :
    (sendComplaint pd store req now .ok).1.status = 200
    ∧ (sendComplaint pd store req now .ok).1.success = true
    ∧ (sendComplaint pd store req now .ok).1.referenceNumber = some (refNumber now)
    ∧ refNumber now = "PENA-" ++ ⟨jsSliceLast8 (decimalRepr now)⟩
    ∧ (jsSliceLast8 (decimalRepr now)).length = 8
    ∧ (jsSliceLast8 (decimalRepr now)).all Char.isDigit = true := by
  have hlen : 8 ≤ (decimalRepr now).length := decimalRepr_length_ge now 7 hnow
  refine ⟨?_, ?_, ?_, rfl, ?_, jsSliceLast8_all_digits (decimalRepr_all_digits now)⟩
  · simp [sendComplaint, hcsrf, hval]
  · simp [sendComplaint, hcsrf, hval]
  · simp [sendComplaint, hcsrf, hval]
  · rw [jsSliceLast8_length]
    omega

/-- C7 witness: concrete run at `now = 10^7` with a live token record and a
concretely valid body. -/
theorem reference_number_format_witness :
    csrfReject (TokenStore.set emptyStore "s" ⟨"t", 10 ^ 7⟩) (some "s") (some "t")
        (10 ^ 7) = none
    ∧ serverValidationErrors (fun _ => some 0)
        ⟨.str "abcd", .str "a@b.c", .undef, .undef, .str "x", .str "d",
         .str "2020-01-01", .str "+1234567890"⟩ (10 ^ 7) = []
    ∧ 10 ^ 7 ≤ 10 ^ 7
    ∧ (sendComplaint (fun _ => some 0) (TokenStore.set emptyStore "s" ⟨"t", 10 ^ 7⟩)
        ⟨some "s", some "t",
         ⟨.str "abcd", .str "a@b.c", .undef, .undef, .str "x", .str "d",
          .str "2020-01-01", .str "+1234567890"⟩⟩ (10 ^ 7) .ok).1.status = 200
    ∧ (jsSliceLast8 (decimalRepr (10 ^ 7))).length = 8
    ∧ (jsSliceLast8 (decimalRepr (10 ^ 7))).all Char.isDigit = true := by
  have h := reference_number_format (fun _ => some 0)
    (TokenStore.set emptyStore "s" ⟨"t", 10 ^ 7⟩)
    ⟨some "s", some "t",
     ⟨.str "abcd", .str "a@b.c", .undef, .undef, .str "x", .str "d",
      .str "2020-01-01", .str "+1234567890"⟩⟩ (10 ^ 7)
    (by decide) (by decide) (by omega)
  exact ⟨by decide, by decide, by omega, h.1, h.2.2.2.2.1, h.2.2.2.2.2⟩

/-! ## C10 : the server.js handler embeds raw values, with no sanitization -/

/-- Predicate: `x` occurs verbatim as a contiguous substring of `y`. -/
def occursIn (x y : List Char) : Prop := ∃ s t, y = s ++ x ++ t

/-- C10: in the CSRF-gated app, for every submission that passes validation
the raw (JS-coerced) field values — untrimmed, tags intact — are spliced
verbatim into the outgoing mail body, and issueType/username into the
subject; no `sanitize` is applied anywhere in src/server.js. -/
theorem raw_fields_embedded (pd : JsVal → Option Int) (b : Body) (now : Nat)
    (ref : String)
    (_hval : serverValidationErrors pd b now = [])
    (hgame : b.gameId.truthy = true) :
    occursIn b.username.jsToString.data (mailText b ref).data
    ∧ occursIn b.email.jsToString.data (mailText b ref).data
    ∧ occursIn b.phoneNumber.jsToString.data (mailText b ref).data
    ∧ occursIn b.platform.jsToString.data (mailText b ref).data
    ∧ occursIn b.issueType.jsToString.data (mailText b ref).data
    ∧ occursIn b.gameId.jsToString.data (mailText b ref).data
    ∧ occursIn b.dateOfIssue.jsToString.data (mailText b ref).data
    ∧ occursIn b.description.jsToString.data (mailText b ref).data
    ∧ occursIn b.issueType.jsToString.data (mailSubject b ref).data
    ∧ occursIn b.username.jsToString.data (mailSubject b ref).data := by
  refine ⟨?_, ?_, ?_, ?_, ?_, ?_, ?_, ?_, ?_, ?_⟩
  · refine ⟨("\nPENASLOT Customer Complaint\n\nNomor Referensi: " ++ ref
        ++ "\nUsername: ").data,
      ("\nEmail: " ++ b.email.jsToString
       ++ "\nNomor Whatsapp: " ++ b.phoneNumber.jsToString
       ++ "\nPlatform: " ++ b.platform.jsToString
       ++ "\nJenis Kendala: " ++ b.issueType.jsToString
       ++ "\nGame ID: " ++ (if b.gameId.truthy then b.gameId.jsToString else "N/A")
       ++ "\nTanggal: " ++ b.dateOfIssue.jsToString
       ++ "\n\nDescription:\n" ++ b.description.jsToString
       ++ "\n      ").data, ?_⟩
    simp [mailText]
  · refine ⟨("\nPENASLOT Customer Complaint\n\nNomor Referensi: " ++ ref
        ++ "\nUsername: " ++ b.username.jsToString ++ "\nEmail: ").data,
      ("\nNomor Whatsapp: " ++ b.phoneNumber.jsToString
       ++ "\nPlatform: " ++ b.platform.jsToString
       ++ "\nJenis Kendala: " ++ b.issueType.jsToString
       ++ "\nGame ID: " ++ (if b.gameId.truthy then b.gameId.jsToString else "N/A")
       ++ "\nTanggal: " ++ b.dateOfIssue.jsToString
       ++ "\n\nDescription:\n" ++ b.description.jsToString
       ++ "\n      ").data, ?_⟩
    simp [mailText]
  · refine ⟨("\nPENASLOT Customer Complaint\n\nNomor Referensi: " ++ ref
        ++ "\nUsername: " ++ b.username.jsToString ++ "\nEmail: "
        ++ b.email.jsToString ++ "\nNomor Whatsapp: ").data,
      ("\nPlatform: " ++ b.platform.jsToString
       ++ "\nJenis Kendala: " ++ b.issueType.jsToString
       ++ "\nGame ID: " ++ (if b.gameId.truthy then b.gameId.jsToString else "N/A")
       ++ "\nTanggal: " ++ b.dateOfIssue.jsToString
       ++ "\n\nDescription:\n" ++ b.description.jsToString
       ++ "\n      ").data, ?_⟩
    simp [mailText]
  · refine ⟨("\nPENASLOT Customer Complaint\n\nNomor Referensi: " ++ ref
        ++ "\nUsername: " ++ b.username.jsToString ++ "\nEmail: "
        ++ b.email.jsToString ++ "\nNomor Whatsapp: "
        ++ b.phoneNumber.jsToString ++ "\nPlatform: ").data,
      ("\nJenis Kendala: " ++ b.issueType.jsToString
       ++ "\nGame ID: " ++ (if b.gameId.truthy then b.gameId.jsToString else "N/A")
       ++ "\nTanggal: " ++ b.dateOfIssue.jsToString
       ++ "\n\nDescription:\n" ++ b.description.jsToString
       ++ "\n      ").data, ?_⟩
    simp [mailText]
  · refine ⟨("\nPENASLOT Customer Complaint\n\nNomor Referensi: " ++ ref
        ++ "\nUsername: " ++ b.username.jsToString ++ "\nEmail: "
        ++ b.email.jsToString ++ "\nNomor Whatsapp: "
        ++ b.phoneNumber.jsToString ++ "\nPlatform: "
        ++ b.platform.jsToString ++ "\nJenis Kendala: ").data,
      ("\nGame ID: " ++ (if b.gameId.truthy then b.gameId.jsToString else "N/A")
       ++ "\nTanggal: " ++ b.dateOfIssue.jsToString
       ++ "\n\nDescription:\n" ++ b.description.jsToString
       ++ "\n      ").data, ?_⟩
    simp [mailText]
  · refine ⟨("\nPENASLOT Customer Complaint\n\nNomor Referensi: " ++ ref
        ++ "\nUsername: " ++ b.username.jsToString ++ "\nEmail: "
        ++ b.email.jsToString ++ "\nNomor Whatsapp: "
        ++ b.phoneNumber.jsToString ++ "\nPlatform: "
        ++ b.platform.jsToString ++ "\nJenis Kendala: "
        ++ b.issueType.jsToString ++ "\nGame ID: ").data,
      ("\nTanggal: " ++ b.dateOfIssue.jsToString
       ++ "\n\nDescription:\n" ++ b.description.jsToString
       ++ "\n      ").data, ?_⟩
    simp [mailText, hgame]
  · refine ⟨("\nPENASLOT Customer Complaint\n\nNomor Referensi: " ++ ref
        ++ "\nUsername: " ++ b.username.jsToString ++ "\nEmail: "
        ++ b.email.jsToString ++ "\nNomor Whatsapp: "
        ++ b.phoneNumber.jsToString ++ "\nPlatform: "
        ++ b.platform.jsToString ++ "\nJenis Kendala: "
        ++ b.issueType.jsToString ++ "\nGame ID: "
        ++ (if b.gameId.truthy then b.gameId.jsToString else "N/A")
        ++ "\nTanggal: ").data,
      ("\n\nDescription:\n" ++ b.description.jsToString ++ "\n      ").data, ?_⟩
    simp [mailText]
  · refine ⟨("\nPENASLOT Customer Complaint\n\nNomor Referensi: " ++ ref
        ++ "\nUsername: " ++ b.username.jsToString ++ "\nEmail: "
        ++ b.email.jsToString ++ "\nNomor Whatsapp: "
        ++ b.phoneNumber.jsToString ++ "\nPlatform: "
        ++ b.platform.jsToString ++ "\nJenis Kendala: "
        ++ b.issueType.jsToString ++ "\nGame ID: "
        ++ (if b.gameId.truthy then b.gameId.jsToString else "N/A")
        ++ "\nTanggal: " ++ b.dateOfIssue.jsToString
        ++ "\n\nDescription:\n").data,
      ("\n      " : String).data, ?_⟩
    simp [mailText]
  · exact ⟨("PENASLOT Complaint: " : String).data,
      (" - " ++ b.username.jsToString ++ " - " ++ ref).data, by simp [mailSubject]⟩
  · exact ⟨("PENASLOT Complaint: " ++ b.issueType.jsToString ++ " - ").data,
      (" - " ++ ref).data, by simp [mailSubject]⟩

/-- C10 witness: a body that passes every server.js check although its
username is untrimmed and carries markup; the raw value (spaces and tags
included) occurs verbatim in the mail text, even though sanitizing or
trimming it would change it. -/
theorem raw_fields_embedded_witness :
    serverValidationErrors (fun _ => some 0)
        ⟨.str " <b>x</b> ", .str "a@b.c", .str "g1", .str "PENASLOT",
         .str "Lainnya", .str "d", .str "2020-01-01", .str "+1234567890"⟩ 0 = []
    ∧ (JsVal.str "g1").truthy = true
    ∧ occursIn " <b>x</b> ".data
        (mailText ⟨.str " <b>x</b> ", .str "a@b.c", .str "g1", .str "PENASLOT",
          .str "Lainnya", .str "d", .str "2020-01-01", .str "+1234567890"⟩ "R").data
    ∧ sanitizeStr " <b>x</b> " ≠ " <b>x</b> "
    ∧ jsTrim " <b>x</b> " ≠ " <b>x</b> " := by
  have h := raw_fields_embedded (fun _ => some 0)
    ⟨.str " <b>x</b> ", .str "a@b.c", .str "g1", .str "PENASLOT",
     .str "Lainnya", .str "d", .str "2020-01-01", .str "+1234567890"⟩ 0 "R"
    (by decide) (by decide)
  exact ⟨by decide, by decide, h.1, by decide, by decide⟩

end PenaBackend
